import Mathlib

/-!
Verification of the payment-status poller and checkout helpers of
`src/js/script.js` (Kellylemayianit/e-commerce-b2b).

The poller `pollPaymentStatus` (lines 1378-1436) is embedded as a step
function `tick` on an explicit machine state `MState`: `setInterval`
fires `tick` once per interval while the timer is active, and
`clearInterval` is modelled by the `timerActive` flag (an inactive state
is frozen, matching a cleared browser interval which never fires again).
Tick number `a` fires at time `a * pollInterval` milliseconds after
`setInterval` is installed, which is the semantics of `setInterval(fn,
pollInterval)`: the first call happens only after one full interval.
Each tick issues one status query (the `fetch` at lines 1388-1397) and
classifies the JSON response exactly as the branch ladder at lines
1406-1418 does; a network error or non-2xx response raises into the
`catch` at lines 1425-1427 and falls through to the budget check at
lines 1430-1433, exactly like a non-terminal JSON status.
-/

/-- Poll budget, `maxAttempts` at line 1379 of src/js/script.js. -/
def maxAttempts : Nat := 30

/-- Poll cadence in milliseconds, `pollInterval` at line 1380. -/
def pollInterval : Nat := 2000

/-- Per-request abort timeout from `CONFIG.TIMEOUT_MS` (line 12). -/
def TIMEOUT_MS : Nat := 15000

/-- The fields of the payment-status JSON body that the poller reads:
`data.status` and `data.error` (lines 1406-1417). -/
structure StatusData where
  status : String
  error : Option String
deriving DecidableEq, Repr

/-- Outcome of one status query: a parsed 2xx JSON body, or an error
(network failure or non-2xx response), which the `catch` at lines
1425-1427 swallows. -/
inductive Resp where
  | ok (data : StatusData)
  | err
deriving DecidableEq, Repr

/-- Terminal callback fired by the poller, tagged by the code path that
fired it: `handlePaymentSuccess` (line 1408), `handlePaymentFailure`
from the FAILED branch (line 1412), from the CANCELLED branch (line
1416), or from the budget-exhaustion branch (line 1432). -/
inductive Terminal where
  | success (data : StatusData)
  | failed (msg : String)
  | cancelled (msg : String)
  | timeout (msg : String)
deriving DecidableEq, Repr

/-- Default message of the FAILED branch (line 1412). -/
def declinedMsg : String := "Payment was declined"

/-- Fixed message of the CANCELLED branch (line 1416). -/
def cancelledMsg : String := "Payment was cancelled"

/-- Message of the budget-exhaustion branch (line 1432). -/
def timeoutMsg : String := "Payment confirmation timeout. Please check your M-Pesa inbox."

/-- Machine state of one run of `pollPaymentStatus`: the `attempts`
counter, whether the interval is still installed, the times (ms) at
which status queries were issued, and the terminal callbacks fired so
far with their times. -/
structure MState where
  attempts : Nat
  timerActive : Bool
  queries : List Nat
  fired : List (Nat × Terminal)
deriving DecidableEq, Repr

/-- JS (x || d) on an optional string: a missing string and the falsy
empty string both yield the fallback. -/
def jsOrStr (v : Option String) (d : String) : String :=
  match v with
  | none => d
  | some x => if x = "" then d else x

/-- Classification ladder at lines 1406-1418: SUCCESS, FAILED and
CANCELLED are terminal; any other status, and any query error, falls
through (`none`). The FAILED branch surfaces data.error || 'Payment was
declined' (line 1412), where an absent and an empty error string both
fall back to the default. -/
def classifyTick (r : Resp) : Option Terminal :=
  match r with
  | .err => none
  | .ok d =>
    if d.status = "SUCCESS" then some (.success d)
    else if d.status = "FAILED" then some (.failed (jsOrStr d.error declinedMsg))
    else if d.status = "CANCELLED" then some (.cancelled cancelledMsg)
    else none

/-- One firing of the interval callback (lines 1383-1435): if the timer
was cleared nothing happens; otherwise `attempts++`, one status query is
issued, a terminal response clears the interval and fires its callback,
and a non-terminal outcome falls through to the `attempts >= maxAttempts`
check which clears the interval and fires the timeout failure. -/
def tick (responses : Nat → Resp) (s : MState) : MState :=
  if s.timerActive then
    let a := s.attempts + 1
    let t := a * pollInterval
    let s1 : MState := { s with attempts := a, queries := s.queries ++ [t] }
    match classifyTick (responses a) with
    | some out => { s1 with timerActive := false, fired := s1.fired ++ [(t, out)] }
    | none =>
      if maxAttempts ≤ a then
        { s1 with timerActive := false, fired := s1.fired ++ [(t, .timeout timeoutMsg)] }
      else s1
  else s

/-- State right after `pollPaymentStatus` installs the interval
(line 1381: `attempts = 0`, timer running, nothing issued or fired). -/
def initState : MState := ⟨0, true, [], []⟩

/-- State of the poller after `n` interval firings, the `n`-th at time
`n * pollInterval` ms. -/
def runPoller (responses : Nat → Resp) : Nat → MState
  | 0 => initState
  | n + 1 => tick responses (runPoller responses n)

/-- Query times of an uninterrupted run: tick `i + 1` queries at
`(i + 1) * pollInterval` ms. -/
def queryTimes (n : Nat) : List Nat := (List.range n).map (fun i => (i + 1) * pollInterval)

theorem runPoller_succ (r : Nat → Resp) (n : Nat) :
    runPoller r (n + 1) = tick r (runPoller r n) := rfl

theorem tick_inactive (r : Nat → Resp) (s : MState) (h : s.timerActive = false) :
    tick r s = s := by
  simp [tick, h]

theorem tick_attempts (r : Nat → Resp) (s : MState) (h : s.timerActive = true) :
    (tick r s).attempts = s.attempts + 1 := by
  unfold tick
  rw [h]
  simp only [if_true]
  cases classifyTick (r (s.attempts + 1)) with
  | some out => rfl
  | none =>
    by_cases hb : maxAttempts ≤ s.attempts + 1
    · rw [if_pos hb]
    · rw [if_neg hb]

theorem tick_queries (r : Nat → Resp) (s : MState) (h : s.timerActive = true) :
    (tick r s).queries = s.queries ++ [(s.attempts + 1) * pollInterval] := by
  unfold tick
  rw [h]
  simp only [if_true]
  cases classifyTick (r (s.attempts + 1)) with
  | some out => rfl
  | none =>
    by_cases hb : maxAttempts ≤ s.attempts + 1
    · rw [if_pos hb]
    · rw [if_neg hb]

/-- Run invariant: the attempt counter is bounded by the budget; while
the timer is running nothing has fired and the budget is not exhausted;
once the timer is cleared exactly one callback has fired. -/
def PollInv (s : MState) : Prop :=
  s.attempts ≤ maxAttempts ∧
  (s.timerActive = true → s.fired = [] ∧ s.attempts < maxAttempts) ∧
  (s.timerActive = false → s.fired.length = 1)

theorem tick_inv (r : Nat → Resp) (s : MState) (h : PollInv s) : PollInv (tick r s) := by
  obtain ⟨h1, h2, h3⟩ := h
  by_cases ha : s.timerActive = true
  · obtain ⟨hf, hlt⟩ := h2 ha
    unfold tick
    rw [ha]
    simp only [if_true]
    cases classifyTick (r (s.attempts + 1)) with
    | some out =>
      dsimp only
      refine ⟨show s.attempts + 1 ≤ maxAttempts by omega, ?_, ?_⟩
      · intro hc
        simp at hc
      · intro _
        simp [hf]
    | none =>
      dsimp only
      by_cases hb : maxAttempts ≤ s.attempts + 1
      · rw [if_pos hb]
        refine ⟨show s.attempts + 1 ≤ maxAttempts by omega, ?_, ?_⟩
        · intro hc
          simp at hc
        · intro _
          simp [hf]
      · rw [if_neg hb]
        refine ⟨show s.attempts + 1 ≤ maxAttempts by omega, ?_, ?_⟩
        · intro _
          exact ⟨hf, show s.attempts + 1 < maxAttempts by omega⟩
        · intro hc
          simp at hc
  · rw [tick_inactive r s (by simpa using ha)]
    exact ⟨h1, h2, h3⟩

theorem runPoller_inv (r : Nat → Resp) (n : Nat) : PollInv (runPoller r n) := by
  induction n with
  | zero =>
    exact show PollInv initState from
      ⟨by decide, fun _ => ⟨rfl, by decide⟩, fun hc => absurd hc (by decide)⟩
  | succ n ih => exact tick_inv r _ ih

theorem runPoller_active_attempts (r : Nat → Resp) (n : Nat)
    (h : (runPoller r n).timerActive = true) : (runPoller r n).attempts = n := by
  induction n with
  | zero => rfl
  | succ n ih =>
    by_cases hs : (runPoller r n).timerActive = true
    · rw [runPoller_succ, tick_attempts r _ hs, ih hs]
    · rw [runPoller_succ, tick_inactive r _ (by simpa using hs)] at h
      exact absurd h hs

theorem runPoller_halts (r : Nat → Resp) (n : Nat) (h : maxAttempts ≤ n) :
    (runPoller r n).timerActive = false := by
  by_contra hc
  have hact : (runPoller r n).timerActive = true := by
    cases hb : (runPoller r n).timerActive
    · exact absurd hb hc
    · rfl
  have h1 := (runPoller_inv r n).2.1 hact
  have h2 := runPoller_active_attempts r n hact
  omega

theorem runPoller_stable (r : Nat → Resp) (n m : Nat) (hnm : n ≤ m)
    (h : (runPoller r n).timerActive = false) :
    runPoller r m = runPoller r n := by
  induction m, hnm using Nat.le_induction with
  | base => rfl
  | succ m hm ih => rw [runPoller_succ, ih, tick_inactive r _ h]

theorem runPoller_pending (r : Nat → Resp) (n : Nat) (hn : n < maxAttempts)
    (h : ∀ a, 1 ≤ a → a ≤ n → classifyTick (r a) = none) :
    runPoller r n = ⟨n, true, queryTimes n, []⟩ := by
  induction n with
  | zero => rfl
  | succ n ih =>
    have hn' : n < maxAttempts := Nat.lt_of_succ_lt hn
    rw [runPoller_succ, ih hn' (fun a h1 h2 => h a h1 (Nat.le_succ_of_le h2))]
    unfold tick
    simp only [if_true]
    rw [h (n + 1) (by omega) (le_refl _)]
    rw [if_neg (by omega : ¬ maxAttempts ≤ n + 1)]
    have hq : queryTimes (n + 1) = queryTimes n ++ [(n + 1) * pollInterval] := by
      simp [queryTimes, List.range_succ]
    simp [hq]

theorem runPoller_terminal (r : Nat → Resp) (k : Nat) (out : Terminal)
    (h1 : 1 ≤ k) (hk : k ≤ maxAttempts)
    (hpre : ∀ a, 1 ≤ a → a < k → classifyTick (r a) = none)
    (hterm : classifyTick (r k) = some out) :
    runPoller r k = ⟨k, false, queryTimes k, [(k * pollInterval, out)]⟩ := by
  obtain ⟨k', rfl⟩ : ∃ k', k = k' + 1 := ⟨k - 1, by omega⟩
  rw [runPoller_succ,
      runPoller_pending r k' (by omega) (fun a ha hak => hpre a ha (by omega))]
  unfold tick
  simp only [if_true]
  rw [hterm]
  have hq : queryTimes (k' + 1) = queryTimes k' ++ [(k' + 1) * pollInterval] := by
    simp [queryTimes, List.range_succ]
  simp [hq]

theorem runPoller_timeout (r : Nat → Resp)
    (h : ∀ a, 1 ≤ a → a ≤ maxAttempts → classifyTick (r a) = none) :
    runPoller r maxAttempts =
      ⟨maxAttempts, false, queryTimes maxAttempts,
       [(maxAttempts * pollInterval, .timeout timeoutMsg)]⟩ := by
  have h29 : runPoller r 29 = ⟨29, true, queryTimes 29, []⟩ :=
    runPoller_pending r 29 (by decide) (fun a ha hak => h a ha (by unfold maxAttempts; omega))
  have hstep : runPoller r maxAttempts = tick r (runPoller r 29) := rfl
  rw [hstep, h29]
  unfold tick
  simp only [if_true]
  rw [h 30 (by decide) (by decide)]
  rw [if_pos (by decide : maxAttempts ≤ 29 + 1)]
  have hq : queryTimes 30 = queryTimes 29 ++ [(29 + 1) * pollInterval] := by
    simp [queryTimes, List.range_succ]
  simp [hq, maxAttempts]

/-- Status view of the spec's PollState: PENDING while nothing has
fired, the kind of the first fired callback afterwards. -/
inductive PStatus where
  | PENDING
  | SUCCESS
  | FAILED
  | CANCELLED
  | TIMEOUT
deriving DecidableEq, Repr

/-- Poll status read off the machine state. -/
def MState.status (s : MState) : PStatus :=
  match s.fired with
  | [] => .PENDING
  | (_, .success _) :: _ => .SUCCESS
  | (_, .failed _) :: _ => .FAILED
  | (_, .cancelled _) :: _ => .CANCELLED
  | (_, .timeout _) :: _ => .TIMEOUT

/-- Response body with status PENDING (a non-terminal status). -/
def pendingData : StatusData := ⟨"PENDING", none⟩

/-- Response body with status SUCCESS. -/
def successData : StatusData := ⟨"SUCCESS", none⟩

/-- Service answering PENDING on every attempt. -/
def pendingResponses : Nat → Resp := fun _ => .ok pendingData

/-- Service answering PENDING twice, then SUCCESS (the spec's scenario
for requestId "abc123"). -/
def seqPPS : Nat → Resp := fun a => if a ≤ 2 then .ok pendingData else .ok successData

theorem runPoller_fired_ne_halted (r : Nat → Resp) (n : Nat)
    (h : (runPoller r n).fired ≠ []) : (runPoller r n).timerActive = false := by
  cases hb : (runPoller r n).timerActive
  · rfl
  · exact absurd ((runPoller_inv r n).2.1 hb).1 h

/-- C1: every run of the poller fires at most one terminal callback
over any prefix, exactly one once the 30-tick budget has elapsed, each
fired callback is one of the success / failure / timeout code paths,
and from the moment anything has fired the machine is frozen (the
interval is cleared), so no further status queries are ever issued. -/
theorem C1_one_terminal_callback (r : Nat → Resp) (n : Nat) :
    (runPoller r n).fired.length ≤ 1 ∧
    (maxAttempts ≤ n → (runPoller r n).fired.length = 1) ∧
    (∀ m, n ≤ m → (runPoller r n).fired ≠ [] → runPoller r m = runPoller r n) := by
  have hinv := runPoller_inv r n
  refine ⟨?_, ?_, ?_⟩
  · cases hb : (runPoller r n).timerActive
    · rw [hinv.2.2 hb]
    · rw [(hinv.2.1 hb).1]
      decide
  · intro h
    exact hinv.2.2 (runPoller_halts r n h)
  · intro m hm hne
    exact runPoller_stable r n m hm (runPoller_fired_ne_halted r n hne)

theorem C1_one_terminal_callback_witness :
    (runPoller pendingResponses 30).fired.length = 1 ∧
    runPoller pendingResponses 31 = runPoller pendingResponses 30 :=
  ⟨(C1_one_terminal_callback pendingResponses 30).2.1 (by decide),
   (C1_one_terminal_callback pendingResponses 30).2.2 31 (by decide) (by decide)⟩

/-- C2: throughout every run the attempt counter stays within the
budget of 30, and the status is monotonic: once it has left PENDING for
a terminal value it keeps exactly that value at every later time. -/
theorem C2_counter_bounded_status_monotonic (r : Nat → Resp) (n : Nat) :
    (runPoller r n).attempts ≤ maxAttempts ∧
    (∀ m, n ≤ m → (runPoller r n).status ≠ PStatus.PENDING →
      (runPoller r m).status = (runPoller r n).status) := by
  refine ⟨(runPoller_inv r n).1, ?_⟩
  intro m hm hs
  have hne : (runPoller r n).fired ≠ [] := by
    intro hnil
    apply hs
    unfold MState.status
    rw [hnil]
  rw [runPoller_stable r n m hm (runPoller_fired_ne_halted r n hne)]

theorem C2_counter_bounded_status_monotonic_witness :
    (runPoller pendingResponses 30).attempts ≤ maxAttempts ∧
    (runPoller pendingResponses 31).status = (runPoller pendingResponses 30).status :=
  ⟨(C2_counter_bounded_status_monotonic pendingResponses 30).1,
   (C2_counter_bounded_status_monotonic pendingResponses 30).2 31 (by decide) (by decide)⟩

/-- C3: when all 30 polled responses are non-terminal, the
budget-exhaustion callback fires exactly once, at the 30th tick which
occurs at t = 60000 ms, exactly 30 status queries were issued, and no
callback at all had fired at any earlier time. -/
theorem C3_timeout_after_thirty (r : Nat → Resp)
    (h : ∀ a, 1 ≤ a → a ≤ maxAttempts → classifyTick (r a) = none) :
    (runPoller r maxAttempts).fired = [(60000, Terminal.timeout timeoutMsg)] ∧
    (runPoller r maxAttempts).queries.length = 30 ∧
    (∀ n, n < maxAttempts → (runPoller r n).fired = []) ∧
    maxAttempts * pollInterval = 60000 := by
  have ht := runPoller_timeout r h
  refine ⟨?_, ?_, ?_, by decide⟩
  · rw [ht]
    decide
  · rw [ht]
    show (queryTimes maxAttempts).length = 30
    simp [queryTimes, maxAttempts]
  · intro n hn
    rw [runPoller_pending r n hn
        (fun a ha hak => h a ha (by unfold maxAttempts at *; omega))]

theorem C3_timeout_after_thirty_witness :
    (runPoller pendingResponses maxAttempts).fired = [(60000, Terminal.timeout timeoutMsg)] ∧
    (runPoller pendingResponses maxAttempts).queries.length = 30 :=
  ⟨(C3_timeout_after_thirty pendingResponses (fun _ _ _ => rfl)).1,
   (C3_timeout_after_thirty pendingResponses (fun _ _ _ => rfl)).2.1⟩

/-- C4 counterexample: with responses PENDING, PENDING, SUCCESS the
poller's queries go out at t = 2000, 4000, 6000 ms (the first interval
elapses before the first tick of setInterval), not at t = 0, 2000,
4000 ms, and the success callback fires at t = 6000 ms, not 4000 ms. -/
theorem C4_counterexample :
    (runPoller seqPPS 30).queries = [2000, 4000, 6000] ∧
    [2000, 4000, 6000] ≠ ([0, 2000, 4000] : List Nat) ∧
    (runPoller seqPPS 30).fired = [(6000, Terminal.success successData)] ∧
    (6000 : Nat) ≠ 4000 := by
  refine ⟨by decide, by decide, by decide, by decide⟩

/-- C4 (amended): for any service whose first two responses are
non-terminal and whose third has status SUCCESS with body d, the poller
issues exactly 3 queries, at t = 2000, 4000 and 6000 ms, and fires the
success callback with the SUCCESS payload d at t = 6000 ms; from tick 3
on nothing further happens. -/
theorem C4_pending_pending_success (r : Nat → Resp) (d : StatusData) (n : Nat)
    (h1 : classifyTick (r 1) = none) (h2 : classifyTick (r 2) = none)
    (h3 : r 3 = Resp.ok d) (hd : d.status = "SUCCESS") (hn : 3 ≤ n) :
    (runPoller r n).queries = [2000, 4000, 6000] ∧
    (runPoller r n).fired = [(6000, Terminal.success d)] := by
  have hcl : classifyTick (r 3) = some (Terminal.success d) := by
    rw [h3]
    simp [classifyTick, hd]
  have ht := runPoller_terminal r 3 (Terminal.success d) (by decide) (by decide)
    (fun a ha hak => by
      interval_cases a
      · exact h1
      · exact h2) hcl
  have hst : runPoller r n = runPoller r 3 :=
    runPoller_stable r 3 n hn (by rw [ht])
  rw [hst, ht]
  refine ⟨?_, rfl⟩
  show queryTimes 3 = [2000, 4000, 6000]
  decide

theorem C4_pending_pending_success_witness :
    (runPoller seqPPS 3).queries = [2000, 4000, 6000] ∧
    (runPoller seqPPS 3).fired = [(6000, Terminal.success successData)] :=
  C4_pending_pending_success seqPPS successData 3 rfl rfl rfl rfl (by decide)

/-- Service answering PENDING everywhere except a network error on
attempt 5. -/
def err5Responses : Nat → Resp := fun a => if a = 5 then .err else .ok pendingData

/-- C5: a query error (network failure or non-2xx response, both of
which land in the catch block) on attempt k triggers no callback, does
not reset the attempt counter, and leaves the timer installed, so
attempt k + 1 issues its query one interval later; the one exception is
k = 30, where the budget is exhausted and only the timeout callback
fires, at the 30th tick. -/
theorem C5_query_error_swallowed (r : Nat → Resp) (k : Nat)
    (hk1 : 1 ≤ k) (hk : k ≤ maxAttempts)
    (hpre : ∀ a, 1 ≤ a → a < k → classifyTick (r a) = none)
    (herr : r k = Resp.err) :
    (k < maxAttempts →
      (runPoller r k).fired = [] ∧
      (runPoller r k).attempts = k ∧
      (runPoller r k).timerActive = true ∧
      (runPoller r (k + 1)).queries = (runPoller r k).queries ++ [(k + 1) * pollInterval]) ∧
    (k = maxAttempts →
      (runPoller r k).fired = [(maxAttempts * pollInterval, Terminal.timeout timeoutMsg)]) := by
  have hall : ∀ a, 1 ≤ a → a ≤ k → classifyTick (r a) = none := by
    intro a ha hak
    rcases Nat.lt_or_ge a k with hlt | hge
    · exact hpre a ha hlt
    · have : a = k := by omega
      rw [this, herr]
      rfl
  constructor
  · intro hklt
    have hp := runPoller_pending r k hklt hall
    refine ⟨by rw [hp], by rw [hp], by rw [hp], ?_⟩
    rw [runPoller_succ, tick_queries r _ (by rw [hp]), hp]
  · intro hkeq
    subst hkeq
    rw [(runPoller_timeout r hall)]

theorem C5_query_error_swallowed_witness :
    (runPoller err5Responses 5).fired = [] ∧
    (runPoller err5Responses 5).timerActive = true ∧
    (runPoller err5Responses 6).queries =
      (runPoller err5Responses 5).queries ++ [6 * pollInterval] := by
  have h := C5_query_error_swallowed err5Responses 5 (by decide) (by decide)
    (fun a ha hak => by interval_cases a <;> rfl) rfl
  exact ⟨(h.1 (by decide)).1, (h.1 (by decide)).2.2.1, (h.1 (by decide)).2.2.2⟩

/-- C6 counterexample: a terminal CANCELLED response that carries a
service-provided error message still surfaces the fixed message
"Payment was cancelled" — the CANCELLED branch (line 1416) ignores
data.error, refuting the claim that the service-provided message is
used for both FAILED and CANCELLED. -/
theorem C6_counterexample :
    (runPoller (fun _ => Resp.ok ⟨"CANCELLED", some "Request cancelled by user"⟩) 1).fired
      = [(2000, Terminal.cancelled "Payment was cancelled")] ∧
    ("Payment was cancelled" : String) ≠ "Request cancelled by user" := by
  refine ⟨by decide, by decide⟩

/-- C6 (amended): on a terminal FAILED status the surfaced failure
message is the service-provided error message when it is present and
non-empty (JS truthy), and "Payment was declined" when the error field
is absent or the empty string; on a terminal CANCELLED status it is
always the fixed message "Payment was cancelled", ignoring any
service-provided message; on budget exhaustion the surfaced message is
"Payment confirmation timeout. Please check your M-Pesa inbox.", which
instructs the user to check the payment provider's inbox. -/
theorem C6_failure_messages (e : Option String) (emsg : String) (hne : emsg ≠ "")
    (n : Nat) (hn : 1 ≤ n) :
    (runPoller (fun _ => Resp.ok ⟨"FAILED", some emsg⟩) n).fired
      = [(2000, Terminal.failed emsg)] ∧
    (runPoller (fun _ => Resp.ok ⟨"FAILED", none⟩) n).fired
      = [(2000, Terminal.failed declinedMsg)] ∧
    (runPoller (fun _ => Resp.ok ⟨"FAILED", some ""⟩) n).fired
      = [(2000, Terminal.failed declinedMsg)] ∧
    (runPoller (fun _ => Resp.ok ⟨"CANCELLED", e⟩) n).fired
      = [(2000, Terminal.cancelled cancelledMsg)] ∧
    timeoutMsg = "Payment confirmation timeout. Please check your M-Pesa inbox." := by
  refine ⟨?_, ?_, ?_, ?_, rfl⟩
  · have ht := runPoller_terminal (fun _ => Resp.ok ⟨"FAILED", some emsg⟩) 1
      (Terminal.failed emsg) (by decide) (by decide)
      (fun a ha hak => by omega)
      (by simp [classifyTick, jsOrStr, hne])
    rw [runPoller_stable _ 1 n hn (by rw [ht]), ht]
    rfl
  · have ht := runPoller_terminal (fun _ => Resp.ok ⟨"FAILED", none⟩) 1
      (Terminal.failed declinedMsg) (by decide) (by decide)
      (fun a ha hak => by omega) rfl
    rw [runPoller_stable _ 1 n hn (by rw [ht]), ht]
    rfl
  · have ht := runPoller_terminal (fun _ => Resp.ok ⟨"FAILED", some ""⟩) 1
      (Terminal.failed declinedMsg) (by decide) (by decide)
      (fun a ha hak => by omega)
      (by simp [classifyTick, jsOrStr])
    rw [runPoller_stable _ 1 n hn (by rw [ht]), ht]
    rfl
  · have ht := runPoller_terminal (fun _ => Resp.ok ⟨"CANCELLED", e⟩) 1
      (Terminal.cancelled cancelledMsg) (by decide) (by decide)
      (fun a ha hak => by omega)
      (by simp [classifyTick])
    rw [runPoller_stable _ 1 n hn (by rw [ht]), ht]
    rfl

theorem C6_failure_messages_witness :
    (runPoller (fun _ => Resp.ok ⟨"FAILED", some "Insufficient funds"⟩) 1).fired
      = [(2000, Terminal.failed "Insufficient funds")] ∧
    (runPoller (fun _ => Resp.ok ⟨"FAILED", some ""⟩) 1).fired
      = [(2000, Terminal.failed declinedMsg)] ∧
    (runPoller (fun _ => Resp.ok ⟨"CANCELLED", some "Insufficient funds"⟩) 1).fired
      = [(2000, Terminal.cancelled cancelledMsg)] :=
  ⟨(C6_failure_messages (some "Insufficient funds") "Insufficient funds" (by decide) 1
      (by decide)).1,
   (C6_failure_messages (some "Insufficient funds") "Insufficient funds" (by decide) 1
      (by decide)).2.2.1,
   (C6_failure_messages (some "Insufficient funds") "Insufficient funds" (by decide) 1
      (by decide)).2.2.2.1⟩

/-- Shape of one outbound HTTP request as built at a fetch call site:
method, endpoint path, and the abort timeout wired to the request via
an AbortController signal, when the call site installs one. -/
structure RequestConfig where
  method : String
  path : String
  abortTimeoutMs : Option Nat
deriving DecidableEq, Repr

/-- Request built by fetchProducts (lines 60-74): GET with an
AbortController aborting after CONFIG.TIMEOUT_MS. -/
def fetchProductsRequest : RequestConfig :=
  ⟨"GET", "/webhook/products", some TIMEOUT_MS⟩

/-- Request built by fetchProductDetails (lines 355-368): GET with an
AbortController aborting after CONFIG.TIMEOUT_MS. -/
def fetchProductDetailsRequest (productId : String) : RequestConfig :=
  ⟨"GET", "/webhook/product/" ++ productId, some TIMEOUT_MS⟩

/-- Request built by fetchPricingCalculation (lines 396-409): GET with
an AbortController aborting after CONFIG.TIMEOUT_MS. -/
def fetchPricingRequest (productId : String) (quantity : Nat) : RequestConfig :=
  ⟨"GET", "/webhook/price-check?product_id=" ++ productId ++ "&quantity=" ++ toString quantity,
   some TIMEOUT_MS⟩

/-- Request built by downloadQuote (lines 627-645): POST with no signal
option, hence no abort timeout. -/
def generateQuoteRequest : RequestConfig := ⟨"POST", "/webhook/generate-quote", none⟩

/-- Request built by requestSample (lines 679-693): POST, no signal. -/
def requestSampleRequest : RequestConfig := ⟨"POST", "/webhook/request-sample", none⟩

/-- Request built by the login / register handlers (lines 912-927 and
1005-1021): POST to /webhook/auth, no signal. -/
def authRequest : RequestConfig := ⟨"POST", "/webhook/auth", none⟩

/-- Request built by initiatePayment (lines 1334-1344): POST, no
signal. -/
def checkoutRequest : RequestConfig := ⟨"POST", "/webhook/checkout", none⟩

/-- Request built by each poll tick of pollPaymentStatus (lines
1388-1397): GET, no signal, hence no abort timeout. -/
def pollStatusRequest (requestId : String) : RequestConfig :=
  ⟨"GET", "/webhook/payment-status?request_id=" ++ requestId, none⟩

/-- C7 counterexample: the status query issued by a poll tick carries
no abort timeout at all — its fetch options (lines 1390-1396) contain
no signal — so it is not subject to the 15000 ms per-request timeout
and can stay pending indefinitely, refuting the claim that every
request is aborted after 15000 ms. -/
theorem C7_counterexample :
    (pollStatusRequest "abc123").abortTimeoutMs = none ∧
    (none : Option Nat) ≠ some 15000 ∧
    TIMEOUT_MS = 15000 := by
  refine ⟨rfl, by decide, rfl⟩

/-- C7 (amended): only the three product/pricing GET call sites —
fetchProducts, fetchProductDetails and fetchPricingCalculation — attach
an AbortController that aborts the request after the shared 15000 ms
CONFIG.TIMEOUT_MS; the checkout POST, the auth POST, the quote and
sample POSTs, and every poll-tick status query attach no signal and so
have no per-request timeout. -/
theorem C7_request_timeouts (productId requestId : String) (quantity : Nat) :
    fetchProductsRequest.abortTimeoutMs = some 15000 ∧
    (fetchProductDetailsRequest productId).abortTimeoutMs = some 15000 ∧
    (fetchPricingRequest productId quantity).abortTimeoutMs = some 15000 ∧
    checkoutRequest.abortTimeoutMs = none ∧
    authRequest.abortTimeoutMs = none ∧
    generateQuoteRequest.abortTimeoutMs = none ∧
    requestSampleRequest.abortTimeoutMs = none ∧
    (pollStatusRequest requestId).abortTimeoutMs = none :=
  ⟨rfl, rfl, rfl, rfl, rfl, rfl, rfl, rfl⟩

/-- Entity substitution of escapeHtml (lines 263-273): the five mapped
characters become their entities, any other character passes through. -/
def escapeChar (c : Char) : List Char :=
  if c = '&' then ['&', 'a', 'm', 'p', ';']
  else if c = '<' then ['&', 'l', 't', ';']
  else if c = '>' then ['&', 'g', 't', ';']
  else if c = '"' then ['&', 'q', 'u', 'o', 't', ';']
  else if c = '\'' then ['&', '#', '0', '3', '9', ';']
  else [c]

/-- escapeHtml (lines 263-273): a falsy argument (null, undefined or
the empty string, modelled as none or some "") yields ""; otherwise
every occurrence of one of the five special characters is replaced by
its entity. -/
def escapeHtml (text : Option String) : String :=
  match text with
  | none => ""
  | some s => if s = "" then "" else ⟨(s.data.map escapeChar).flatten⟩

theorem escapeChar_no_raw (c0 c : Char) (h : c ∈ escapeChar c0) :
    c ≠ '<' ∧ c ≠ '>' ∧ c ≠ '"' ∧ c ≠ '\'' := by
  unfold escapeChar at h
  split_ifs at h with h1 h2 h3 h4 h5
  · fin_cases h <;> refine ⟨by decide, by decide, by decide, by decide⟩
  · fin_cases h <;> refine ⟨by decide, by decide, by decide, by decide⟩
  · fin_cases h <;> refine ⟨by decide, by decide, by decide, by decide⟩
  · fin_cases h <;> refine ⟨by decide, by decide, by decide, by decide⟩
  · fin_cases h <;> refine ⟨by decide, by decide, by decide, by decide⟩
  · rw [List.mem_singleton] at h
    subst h
    exact ⟨h2, h3, h4, h5⟩

/-- C8: escapeHtml never leaves a raw angle bracket or quote character
in its output — every character of the result differs from each of <,
>, double quote and single quote — a falsy input (null, undefined, "")
yields the empty string, and each special character is rewritten to its
HTML entity, as on the sample input. -/
theorem C8_escapeHtml_no_raw (t : Option String) :
    (∀ c ∈ (escapeHtml t).data, c ≠ '<' ∧ c ≠ '>' ∧ c ≠ '"' ∧ c ≠ '\'') ∧
    escapeHtml none = "" ∧
    escapeHtml (some "") = "" ∧
    escapeHtml (some "a<b\"c'd>&") = "a&lt;b&quot;c&#039;d&gt;&amp;" := by
  refine ⟨?_, rfl, rfl, by decide⟩
  intro c hc
  match t with
  | none => simp [escapeHtml] at hc
  | some s =>
    by_cases hs : s = ""
    · simp [escapeHtml, hs] at hc
    · rw [escapeHtml, if_neg hs] at hc
      have hc' : c ∈ (s.data.map escapeChar).flatten := hc
      rw [List.mem_flatten] at hc'
      obtain ⟨l, hl, hcl⟩ := hc'
      rw [List.mem_map] at hl
      obtain ⟨c0, _, rfl⟩ := hl
      exact escapeChar_no_raw c0 c hcl

theorem C8_escapeHtml_no_raw_witness :
    '&' ∈ (escapeHtml (some "<")).data ∧
    ('&' ≠ '<' ∧ '&' ≠ '>' ∧ '&' ≠ '"' ∧ '&' ≠ '\'') ∧
    escapeHtml none = "" :=
  ⟨by decide, (C8_escapeHtml_no_raw (some "<")).1 '&' (by decide),
   (C8_escapeHtml_no_raw (some "<")).2.1⟩

/-- Leading-match test used to implement the JS String.includes
semantics: the needle occurs at the very start of the haystack. -/
def leadsWith : List Char → List Char → Bool
  | [], _ => true
  | _ :: _, [] => false
  | a :: as, b :: bs => a = b && leadsWith as bs

/-- JS String.includes on character lists: the needle occurs
contiguously somewhere in the haystack (always true for an empty
needle). -/
def hasSub (needle : List Char) : List Char → Bool
  | [] => leadsWith needle []
  | b :: bs => leadsWith needle (b :: bs) || hasSub needle bs

/-- JS String.includes. -/
def includesStr (hay needle : String) : Bool := hasSub needle.data hay.data

/-- JS String.toLowerCase, character by character. -/
def toLowerStr (s : String) : String := ⟨s.data.map Char.toLower⟩

/-- JS truthiness of an optional string field: null, undefined and ""
are falsy; any other string is kept. -/
def jsPresent : Option String → Option String
  | none => none
  | some s => if s = "" then none else some s

/-- Fields of a product read by filterProducts (lines 195-212); each is
optional because the webhook JSON may omit it. -/
structure Product where
  category : Option String
  product_name : Option String
  supplier_name : Option String
  sku : Option String
deriving DecidableEq, Repr

/-- Category test (lines 198-199): 'all' matches everything, otherwise
the product needs a truthy category whose lowercasing equals the active
category. -/
def matchesCategory (activeCategory : String) (p : Product) : Bool :=
  (activeCategory = "all") ||
    (match jsPresent p.category with
     | some c => toLowerStr c = activeCategory
     | none => false)

/-- Search test (lines 202-206): some of product_name, supplier_name
(case-insensitively) or sku (case-sensitively) must be truthy and
contain the query. -/
def matchesSearch (searchQuery : String) (p : Product) : Bool :=
  let searchLower := toLowerStr searchQuery
  (match jsPresent p.product_name with
   | some nm => includesStr (toLowerStr nm) searchLower
   | none => false) ||
  (match jsPresent p.supplier_name with
   | some nm => includesStr (toLowerStr nm) searchLower
   | none => false) ||
  (match jsPresent p.sku with
   | some k => includesStr k searchQuery
   | none => false)

/-- filterProducts (lines 195-212): keep the products passing both the
category and the search test. -/
def filterProducts (activeCategory searchQuery : String) (allProducts : List Product) :
    List Product :=
  allProducts.filter (fun p => matchesCategory activeCategory p && matchesSearch searchQuery p)

/-- Product with no name, supplier or sku in the webhook payload. -/
def blankProduct : Product := ⟨some "electronics", none, none, none⟩

/-- C9: the filtered list is a sublist of the loaded products; a
product is kept only if one of product_name, supplier_name or sku is
present (truthy) and satisfies the search; and even with category 'all'
and the empty query, a product lacking all three fields is excluded. -/
theorem C9_filter_requires_field (activeCategory searchQuery : String) (ps : List Product) :
    (filterProducts activeCategory searchQuery ps).Sublist ps ∧
    (∀ p ∈ filterProducts activeCategory searchQuery ps,
      (∃ nm, jsPresent p.product_name = some nm ∧
        includesStr (toLowerStr nm) (toLowerStr searchQuery) = true) ∨
      (∃ nm, jsPresent p.supplier_name = some nm ∧
        includesStr (toLowerStr nm) (toLowerStr searchQuery) = true) ∨
      (∃ k, jsPresent p.sku = some k ∧ includesStr k searchQuery = true)) ∧
    blankProduct ∉ filterProducts "all" "" ps := by
  refine ⟨List.filter_sublist ps, ?_, ?_⟩
  · intro p hp
    have hmem := List.mem_filter.mp hp
    have hsearch : matchesSearch searchQuery p = true :=
      (Bool.and_eq_true _ _).mp hmem.2 |>.2
    unfold matchesSearch at hsearch
    rw [Bool.or_eq_true, Bool.or_eq_true] at hsearch
    rcases hsearch with (h1 | h2) | h3
    · left
      cases hc : jsPresent p.product_name with
      | none => rw [hc] at h1; exact absurd h1 Bool.false_ne_true
      | some nm => rw [hc] at h1; exact ⟨nm, rfl, h1⟩
    · right; left
      cases hc : jsPresent p.supplier_name with
      | none => rw [hc] at h2; exact absurd h2 Bool.false_ne_true
      | some nm => rw [hc] at h2; exact ⟨nm, rfl, h2⟩
    · right; right
      cases hc : jsPresent p.sku with
      | none => rw [hc] at h3; exact absurd h3 Bool.false_ne_true
      | some k => rw [hc] at h3; exact ⟨k, rfl, h3⟩
  · intro hp
    have hmem := List.mem_filter.mp hp
    have : (matchesCategory "all" blankProduct && matchesSearch "" blankProduct) = false := by
      decide
    rw [this] at hmem
    exact absurd hmem.2 (by decide)

/-- Product whose payload has every searchable field present. -/
def fullProduct : Product :=
  ⟨some "electronics", some "USB Hub", some "TechSupply Ltd", some "SKU-001"⟩

theorem C9_filter_requires_field_witness :
    blankProduct ∉ filterProducts "all" "" [blankProduct, fullProduct] ∧
    ((∃ nm, jsPresent fullProduct.product_name = some nm ∧
        includesStr (toLowerStr nm) (toLowerStr "") = true) ∨
     (∃ nm, jsPresent fullProduct.supplier_name = some nm ∧
        includesStr (toLowerStr nm) (toLowerStr "") = true) ∨
     (∃ k, jsPresent fullProduct.sku = some k ∧ includesStr k "" = true)) :=
  ⟨(C9_filter_requires_field "all" "" [blankProduct, fullProduct]).2.2,
   (C9_filter_requires_field "all" "" [blankProduct, fullProduct]).2.1 fullProduct
     (by rw [show filterProducts "all" "" [blankProduct, fullProduct] = [fullProduct] from rfl]
         exact List.mem_singleton.mpr rfl)⟩

/-- Fields of a cart item read by renderOrderItems (line 1206),
calculateTotals (lines 1239-1248) and initiatePayment (lines
1322-1328). Amounts are whole KES, as in the spec's data model, so JS
numbers are modelled as integers and Math.round is the identity. -/
structure CartItem where
  final_price_kes : Option Int
  supplier_cost : Option Int
  international_freight : Option Int
  kra_duty : Option Int
  vat : Option Int
  platform_fee : Option Int
  markup : Option Int
  quantity : Option Int
deriving DecidableEq, Repr

/-- JS (x || d) on an optional numeric field: a missing field and the
falsy value 0 both yield the fallback. -/
def jsOr (v : Option Int) (d : Int) : Int :=
  match v with
  | none => d
  | some x => if x = 0 then d else x

/-- Accumulators of calculateTotals (lines 1233-1250). -/
structure Totals where
  subtotal : Int
  shipping : Int
  taxes : Int
  fees : Int
  total : Int
deriving DecidableEq, Repr

/-- Body of the cart.forEach at lines 1239-1248: each component is
scaled by (item.quantity || 1) and added to its accumulator. -/
def calcStep (acc : Totals) (item : CartItem) : Totals :=
  let q := jsOr item.quantity 1
  { acc with
    subtotal := acc.subtotal + jsOr item.supplier_cost 0 * q
    shipping := acc.shipping + jsOr item.international_freight 0 * q
    taxes := acc.taxes + jsOr item.kra_duty 0 * q + jsOr item.vat 0 * q
    fees := acc.fees + jsOr item.platform_fee 0 * q }

/-- calculateTotals (lines 1232-1263): fold the cart through the four
accumulators, then total = subtotal + shipping + taxes + fees (line
1250); window.orderTotal stores this total (line 1261). -/
def calculateTotals (cart : List CartItem) : Totals :=
  let s := cart.foldl calcStep ⟨0, 0, 0, 0, 0⟩
  { s with total := s.subtotal + s.shipping + s.taxes + s.fees }

/-- Per-item cost-component total: the amount one cart item contributes
to the charged total. -/
def itemCostTotal (item : CartItem) : Int :=
  (jsOr item.supplier_cost 0 + jsOr item.international_freight 0 +
   jsOr item.kra_duty 0 + jsOr item.vat 0 + jsOr item.platform_fee 0) *
    jsOr item.quantity 1

/-- Line total shown per item in the order summary (renderOrderItems
lines 1206 and 1221): (item.final_price_kes || 0) * (item.quantity || 1). -/
def itemLineTotal (item : CartItem) : Int :=
  jsOr item.final_price_kes 0 * jsOr item.quantity 1

/-- Sum of the order summary's per-item line totals. -/
def orderLineSum (cart : List CartItem) : Int := (cart.map itemLineTotal).sum

/-- Amount sent in the checkout payload (initiatePayment line 1322):
Math.round(window.orderTotal), the identity on whole-KES totals. -/
def paymentAmount (cart : List CartItem) : Int := (calculateTotals cart).total

theorem foldl_calcStep_sum (cart : List CartItem) (acc : Totals) :
    (cart.foldl calcStep acc).subtotal + (cart.foldl calcStep acc).shipping +
      (cart.foldl calcStep acc).taxes + (cart.foldl calcStep acc).fees =
    acc.subtotal + acc.shipping + acc.taxes + acc.fees + (cart.map itemCostTotal).sum := by
  induction cart generalizing acc with
  | nil => simp
  | cons item rest ih =>
    rw [List.foldl_cons, ih, List.map_cons, List.sum_cons]
    unfold calcStep itemCostTotal
    dsimp only
    ring

/-- Cart item whose final_price_kes carries a markup over the sum of
its cost components (100 + 10 + 5 + 16 + 3 = 134, sold at 154). -/
def markedUpItem : CartItem :=
  ⟨some 154, some 100, some 10, some 5, some 16, some 3, some 20, some 1⟩

/-- C10: the charged total equals the sum over items of
(supplier_cost + international_freight + kra_duty + vat + platform_fee)
scaled by quantity, with 0 substituted for each missing component; it
is independent of every item's markup and final_price_kes fields; and
it can differ from the sum of the order summary's per-item line totals,
as the marked-up sample item shows (134 versus 154). -/
theorem C10_checkout_total (cart : List CartItem) :
    (calculateTotals cart).total = (cart.map itemCostTotal).sum ∧
    paymentAmount cart = (cart.map itemCostTotal).sum ∧
    (∀ m, (calculateTotals (cart.map (fun i => { i with markup := m }))).total
        = (calculateTotals cart).total) ∧
    (∀ f, (calculateTotals (cart.map (fun i => { i with final_price_kes := f }))).total
        = (calculateTotals cart).total) ∧
    ((calculateTotals [markedUpItem]).total = 134 ∧ orderLineSum [markedUpItem] = 154) := by
  have key : ∀ c : List CartItem, (calculateTotals c).total = (c.map itemCostTotal).sum := by
    intro c
    show (c.foldl calcStep ⟨0, 0, 0, 0, 0⟩).subtotal + (c.foldl calcStep ⟨0, 0, 0, 0, 0⟩).shipping +
        (c.foldl calcStep ⟨0, 0, 0, 0, 0⟩).taxes + (c.foldl calcStep ⟨0, 0, 0, 0, 0⟩).fees =
      (c.map itemCostTotal).sum
    rw [foldl_calcStep_sum]
    dsimp only
    ring
  have hcost_markup : ∀ (m : Option Int) (i : CartItem),
      itemCostTotal { i with markup := m } = itemCostTotal i := fun _ _ => rfl
  have hcost_price : ∀ (f : Option Int) (i : CartItem),
      itemCostTotal { i with final_price_kes := f } = itemCostTotal i := fun _ _ => rfl
  refine ⟨key cart, key cart, ?_, ?_, by decide, by decide⟩
  · intro m
    rw [key, key, List.map_map]
    exact congrArg List.sum (List.map_congr_left (fun i _ => hcost_markup m i))
  · intro f
    rw [key, key, List.map_map]
    exact congrArg List.sum (List.map_congr_left (fun i _ => hcost_price f i))
